import Mathlib

/-!
Verification of the Compliance_Bot repository (src/app.py, src/test.py).

This file gives a shallow embedding in Lean 4 of the answer-orchestration
pipeline of `ComplianceAssistantBot` and of the auxiliary entry points
(configuration loading, retrieval client, prompt builder, model client,
orchestrator, request handler), and proves or refutes the specification
claims about them.

External services (AWS Kendra and AWS Bedrock) are opaque in the source:
they are modelled by passing their outcome (a successful response value or
a raised exception message) as an explicit argument, exactly at the points
where the source performs the remote call inside a try/except block.
Python exceptions are modelled with `Except String`; Python `None` with
`Option`; Python dictionaries read through `.get(k, default)` with
structures of `Option` fields.
-/

namespace ComplianceBot

/-- Python truthiness of an optional string: `None` and the empty string
are falsy, every other string is truthy. -/
def pyTruthyStr : Option String → Bool
  | none => false
  | some s => !(s == "")

/-- Python truthiness of an optional list (as returned by
`query_kendra_rag`): `None` and the empty list are falsy. -/
def pyTruthyOptList {α : Type} : Option (List α) → Bool
  | none => false
  | some l => !l.isEmpty

/-- One raw item of a Kendra query response, with the fields the source
reads: `DocumentExcerpt.Text`, `DocumentTitle.Text` and
`ScoreAttributes.ScoreConfidence`.  Each is optional, matching the chained
`.get` calls with defaults in `query_kendra_rag`. -/
structure ResultItem where
  documentExcerptText : Option String
  documentTitleText : Option String
  scoreConfidence : Option String
  deriving Repr, DecidableEq

/-- The dictionary appended to `relevant_results` in `query_kendra_rag`
(src/app.py lines 181-185): keys `text`, `title`, `confidence`. -/
structure Excerpt where
  text : String
  title : String
  confidence : String
  deriving Repr, DecidableEq

/-- The extraction `{'text': ..., 'title': ..., 'confidence': ...}` from a
raw result item, with the `.get(..., '')` defaults of the source. -/
def toExcerpt (r : ResultItem) : Excerpt :=
  { text := r.documentExcerptText.getD ""
    title := r.documentTitleText.getD ""
    confidence := r.scoreConfidence.getD "" }

/-- Outcome of the Kendra `query` call: either a raised exception message
or the list of `ResultItems` of the response (`response.get('ResultItems', [])`
is folded into the list, an absent key giving the empty list). -/
abbrev KendraOutcome := Except String (List ResultItem)

/-- Shallow embedding of `query_kendra_rag` (src/app.py lines 166-191).
It filters the response items to those whose `ScoreConfidence` equals
`HIGH`, maps them to excerpts, and returns the list if non-empty, `None`
otherwise; any exception from the service is caught and turns into
`None`. -/
def query_kendra_rag (outcome : KendraOutcome) : Option (List Excerpt) :=
  match outcome with
  | .error _ => none
  | .ok items =>
      let relevant_results :=
        (items.filter (fun r => r.scoreConfidence == some "HIGH")).map toExcerpt
      if relevant_results.isEmpty then none else some relevant_results

/-- The list of excerpts a caller observes from `query_kendra_rag`, with
`None` read as no results. -/
def excerptsOf (o : Option (List Excerpt)) : List Excerpt := o.getD []

/-- The fixed template text of `create_compliance_prompt` up to the
interpolated question (src/app.py lines 110-122). -/
def compliancePromptHeader : String :=
  "You are an expert compliance officer assistant with deep knowledge of financial regulations, AML (Anti-Money Laundering), KYC (Know Your Customer), trading compliance, and regulatory reporting requirements.\n\nYour role is to provide accurate, actionable guidance on compliance matters while being clear about when additional legal consultation may be needed.\n\nGuidelines for your responses:\n1. Provide clear, structured answers\n2. Include relevant regulatory references when applicable\n3. Highlight key action items or requirements\n4. Mention potential consequences of non-compliance\n5. Suggest when to consult legal counsel for complex matters\n6. Use bullet points for clarity when listing requirements\n\nQuestion: "

/-- The fixed template text of `create_compliance_prompt` after the
optional context block (src/app.py line 126). -/
def compliancePromptFooter : String :=
  "\n\nPlease provide a comprehensive answer that addresses all aspects of this compliance question."

/-- Shallow embedding of `create_compliance_prompt` (src/app.py lines
106-128).  The context block is inserted only when `context` is truthy in
the Python sense (present and non-empty), mirroring the conditional
f-string expression on line 124. -/
def create_compliance_prompt (question : String) (context : Option String) : String :=
  compliancePromptHeader ++ question ++ "\n\n" ++
    (if pyTruthyStr context then "Additional Context: " ++ context.getD "" else "") ++
    compliancePromptFooter

/-- Outcome of the Bedrock `invoke_model` call together with the response
parsing on lines 156-157: `.ok text` is the extracted first content
segment, `.error e` the message of any exception raised in the try
block. -/
abbrev BedrockOutcome := Except String String

/-- Shallow embedding of `query_bedrock_llm` (src/app.py lines 130-164):
on success the extracted answer text is returned, on any exception the
apology string embedding the error message is returned instead.  The
prompt argument only feeds the request body and does not influence which
branch is taken. -/
def query_bedrock_llm (_prompt : String) (outcome : BedrockOutcome) : String :=
  match outcome with
  | .ok answer => answer
  | .error e =>
      "I apologize, but I encountered an error while processing your question: " ++ e

/-- The structured response dictionary of `get_compliance_answer`
(src/app.py lines 215-221). -/
structure ComplianceAnswer where
  question : String
  answer : String
  rag_used : Bool
  context_sources : Option (List Excerpt)
  timestamp : String
  deriving Repr, DecidableEq

/-- The `kendra_results` value of `get_compliance_answer`: the retrieval
client is consulted only when `use_rag` is set (src/app.py lines
202-203); otherwise the name stays unbound, which the source never reads
on that path, so `none` models it. -/
def kendraResults (use_rag : Bool) (kendra : KendraOutcome) : Option (List Excerpt) :=
  if use_rag then query_kendra_rag kendra else none

/-- The `context` value of `get_compliance_answer` (src/app.py lines
199, 204-205): the newline-joined first three excerpt texts, each
prefixed with a dash, when retrieval produced a truthy result; `None`
otherwise. -/
def ragContext (use_rag : Bool) (kendra : KendraOutcome) : Option String :=
  if pyTruthyOptList (kendraResults use_rag kendra) then
    some (String.intercalate "\n"
      (((excerptsOf (kendraResults use_rag kendra)).take 3).map (fun r => "- " ++ r.text)))
  else none

/-- Shallow embedding of `get_compliance_answer` (src/app.py lines
193-231).  The two remote outcomes and the current instant are explicit
arguments.  The inner clients catch their own exceptions, so the body of
the outer try block is total and its except path (lines 223-231) is
unreachable in this model. -/
def get_compliance_answer (question : String) (use_rag : Bool)
    (kendra : KendraOutcome) (bedrock : BedrockOutcome) (now : String) :
    ComplianceAnswer :=
  let kendra_results := kendraResults use_rag kendra
  let rag_used := pyTruthyOptList kendra_results
  { question := question
    answer := query_bedrock_llm
      (create_compliance_prompt question (ragContext use_rag kendra)) bedrock
    rag_used := rag_used
    context_sources := if rag_used then kendra_results else none
    timestamp := now }

/-- The process environment as read by `setup_aws_clients` and the debug
prints: each `os.getenv` key is an optional string (`none` models an
unset variable). -/
structure Env where
  aws_access_key_id : Option String
  aws_secret_access_key : Option String
  aws_region : Option String
  bedrock_model_id : Option String
  bedrock_max_tokens : Option String
  bedrock_temperature : Option String
  kendra_index_id : Option String
  kendra_min_confidence_score : Option String
  deriving Repr, DecidableEq

/-- Value of an ASCII digit list read in base 10. -/
def digitsToNat (ds : List Char) : Nat :=
  ds.foldl (fun n c => 10 * n + (c.toNat - 48)) 0

/-- Model of the Python `int` conversion applied to environment strings
(an optional sign followed by one or more ASCII digits); every malformed
string yields `none`, modelling the raised `ValueError`. -/
def pyInt (s : String) : Option Int :=
  match s.data with
  | [] => none
  | c :: cs =>
      let neg : Bool := c == '-'
      let ds : List Char := if c == '-' || c == '+' then cs else c :: cs
      if !ds.isEmpty && ds.all Char.isDigit then
        some (if neg then -(digitsToNat ds : Int) else (digitsToNat ds : Int))
      else none

/-- Model of the Python `float` conversion applied to environment strings
(an optional sign, then a plain decimal literal: digits, an optional dot,
more digits, at least one digit overall); every malformed string yields
`none`, modelling the raised `ValueError`.  The value is kept as an exact
rational. -/
def pyFloat (s : String) : Option ℚ :=
  let core : List Char → Option ℚ := fun ds =>
    let intPart := ds.takeWhile Char.isDigit
    match ds.dropWhile Char.isDigit with
    | [] =>
        if intPart.isEmpty then none else some (digitsToNat intPart : ℚ)
    | '.' :: frac =>
        if (intPart.isEmpty && frac.isEmpty) || !frac.all Char.isDigit then none
        else some ((digitsToNat intPart : ℚ) +
          (digitsToNat frac : ℚ) / (10 ^ frac.length : ℚ))
    | _ => none
  match s.data with
  | [] => none
  | c :: cs =>
      if c == '-' then (core cs).map Neg.neg
      else if c == '+' then core cs
      else core (c :: cs)

/-- The `aws_config` dictionary of `setup_aws_clients` (src/app.py lines
40-44). -/
structure AwsConfig where
  region_name : String
  aws_access_key_id : Option String
  aws_secret_access_key : Option String
  deriving Repr, DecidableEq

/-- The `model_config` dictionary of `setup_aws_clients` (src/app.py
lines 63-69). -/
structure ModelConfig where
  model_id : String
  max_tokens : Int
  temperature : ℚ
  kendra_index_id : String
  min_confidence_score : ℚ
  deriving Repr, DecidableEq

/-- The distinguishable failures of `setup_aws_clients`: the explicit
`ValueError` raised for missing credentials (the ConfigurationError of
the specification), and the `ValueError` a numeric conversion raises on a
malformed environment value. -/
inductive ConfigError where
  | credentialsError (msg : String)
  | parseError (msg : String)
  deriving Repr, DecidableEq

/-- Shallow embedding of `setup_aws_clients` (src/app.py lines 27-75):
builds `aws_config` with the region default, raises for a missing or
empty credential, then builds `model_config` with the documented defaults
for every absent key.  The boto3 client construction performs no
validation of its own and is omitted.  The outer except block only logs
and re-raises, so errors propagate unchanged. -/
def setup_aws_clients (env : Env) : Except ConfigError (AwsConfig × ModelConfig) :=
  let aws_config : AwsConfig :=
    { region_name := env.aws_region.getD "us-east-1"
      aws_access_key_id := env.aws_access_key_id
      aws_secret_access_key := env.aws_secret_access_key }
  if !pyTruthyStr aws_config.aws_access_key_id ||
      !pyTruthyStr aws_config.aws_secret_access_key then
    .error (.credentialsError "AWS credentials not found. Please check your .env file.")
  else
    match pyInt (env.bedrock_max_tokens.getD "2000") with
    | none => .error (.parseError "invalid literal for int conversion")
    | some mt =>
        match pyFloat (env.bedrock_temperature.getD "0.7") with
        | none => .error (.parseError "could not convert string to float")
        | some temp =>
            match pyFloat (env.kendra_min_confidence_score.getD "0.3") with
            | none => .error (.parseError "could not convert string to float")
            | some conf =>
                .ok (aws_config,
                  { model_id :=
                      env.bedrock_model_id.getD "anthropic.claude-3-sonnet-20240229-v1:0"
                    max_tokens := mt
                    temperature := temp
                    kendra_index_id := env.kendra_index_id.getD "salespitch"
                    min_confidence_score := conf })

/-- Number of occurrences of `pat` as a contiguous substring of `s`,
counted at every starting position. -/
def countSubstr (s pat : String) : Nat :=
  (s.data.tails.filter (fun t => pat.data.isPrefixOf t)).length

/-- Model of the Python slice `s[-4:]`: the last four characters of the
string, or the whole string when it is shorter. -/
def pySliceLast4 (s : String) : String :=
  String.mk (s.data.drop (s.data.length - 4))

/-- The value printed for the secret access key on src/app.py line 33:
three asterisks followed by the last four characters when the variable is
truthy, the NOT_FOUND placeholder otherwise. -/
def maskedSecretDisplay (v : Option String) : String :=
  if pyTruthyStr v then "***" ++ pySliceLast4 (v.getD "NOT_FOUND") else "NOT_FOUND"

/-- The debug lines printed by `setup_aws_clients` (src/app.py lines
31-37), in order.  Every environment value other than the secret access
key is interpolated in full. -/
def setup_debug_output (env : Env) : List String :=
  [ "=== Environment Variables Debug ==="
  , "AWS_ACCESS_KEY_ID: " ++ env.aws_access_key_id.getD "NOT_FOUND"
  , "AWS_SECRET_ACCESS_KEY: " ++ maskedSecretDisplay env.aws_secret_access_key
  , "AWS_REGION: " ++ env.aws_region.getD "NOT_FOUND"
  , "BEDROCK_MODEL_ID: " ++ env.bedrock_model_id.getD "NOT_FOUND"
  , "KENDRA_INDEX_ID: " ++ env.kendra_index_id.getD "NOT_FOUND"
  , "===================================" ]

/-- An environment holding only the two credentials, every other key
unset. -/
def envWithCreds (a s : String) : Env :=
  { aws_access_key_id := some a
    aws_secret_access_key := some s
    aws_region := none
    bedrock_model_id := none
    bedrock_max_tokens := none
    bedrock_temperature := none
    kendra_index_id := none
    kendra_min_confidence_score := none }

/-- ASCII lowering of one character: the behaviour of the Python `lower`
method on the ASCII range, which is the alphabet the handler compares
against. -/
def pyCharLower (c : Char) : Char :=
  if 'A' ≤ c ∧ c ≤ 'Z' then Char.ofNat (c.toNat + 32) else c

/-- ASCII model of the Python string `lower` method. -/
def pyLower (s : String) : String :=
  String.mk (s.data.map pyCharLower)

/-- The POST body dictionary as read by the handler: only the `question`
and `use_rag` keys are consulted (src/app.py lines 349-350). -/
structure BodyDict where
  question : Option String
  use_rag : Option Bool
  deriving Repr, DecidableEq

/-- The query-parameter dictionary as read by the handler on the non-POST
path: only the `question` and `use_rag` keys are consulted, both strings
(src/app.py lines 353-354). -/
structure QueryDict where
  question : Option String
  use_rag : Option String
  deriving Repr, DecidableEq

/-- A Lambda request event, carrying the fields the handler reads.
`body` holds the parse outcome of the raw body text (`none` when the key
is absent, in which case the source parses the default text of an empty
JSON object); `queryStringParameters` distinguishes an absent key (outer
`none`, defaulted to an empty dictionary) from a key explicitly set to
`None` (inner `none`, on which the attribute access raises). -/
structure LambdaEvent where
  httpMethod : Option String
  body : Option (Except String BodyDict)
  queryStringParameters : Option (Option QueryDict)

/-- The JSON payload of a handler response: either a serialized
compliance answer or an error object. -/
inductive ResponseBody where
  | answerBody (a : ComplianceAnswer)
  | errorBody (msg : String)
  deriving Repr, DecidableEq

/-- A handler response: status code, headers and body (src/app.py lines
357-361, 366-373, 377-381). -/
structure LambdaResponse where
  statusCode : Nat
  headers : List (String × String)
  body : ResponseBody
  deriving Repr, DecidableEq

/-- The `use_rag` flag computed on the handler's non-POST path
(src/app.py line 354): the `use_rag` query parameter, defaulted to the
text true when absent, lowercased and compared for equality with the
text true. -/
def extract_use_rag_get (qd : QueryDict) : Bool :=
  pyLower (qd.use_rag.getD "true") == "true"

/-- The question and retrieval flag the handler extracts from the event
(src/app.py lines 347-354): from the parsed JSON body on the POST path,
from the query parameters otherwise; `.error` carries the message of an
exception raised during extraction (malformed body JSON, or attribute
access on a `None` query-parameter mapping). -/
def extractQuestionUseRag (event : LambdaEvent) : Except String (String × Bool) :=
  if event.httpMethod == some "POST" then
    match event.body with
    | none => .ok ("", true)
    | some (.error e) => .error e
    | some (.ok bd) => .ok (bd.question.getD "", bd.use_rag.getD true)
  else
    match event.queryStringParameters with
    | none => .ok ("", extract_use_rag_get { question := none, use_rag := none })
    | some none => .error "AttributeError: NoneType object has no attribute get"
    | some (some qd) => .ok (qd.question.getD "", extract_use_rag_get qd)

/-- The body of the try block of `lambda_handler` (src/app.py lines
342-373): bot initialization, extraction of the question and flag, the
400 short-circuit for a missing question, and the 200 response carrying
the serialized compliance answer.  `.error` is a raised exception
reaching the handler's except block. -/
def lambda_handler_core (event : LambdaEvent) (env : Env)
    (kendra : KendraOutcome) (bedrock : BedrockOutcome) (now : String) :
    Except String LambdaResponse :=
  match setup_aws_clients env with
  | .error (.credentialsError m) => .error m
  | .error (.parseError m) => .error m
  | .ok _ =>
      match extractQuestionUseRag event with
      | .error e => .error e
      | .ok (question, use_rag) =>
          if question == "" then
            .ok { statusCode := 400
                  headers := [("Content-Type", "application/json")]
                  body := .errorBody "Question parameter is required" }
          else
            .ok { statusCode := 200
                  headers := [("Content-Type", "application/json"),
                              ("Access-Control-Allow-Origin", "*")]
                  body := .answerBody
                    (get_compliance_answer question use_rag kendra bedrock now) }

/-- Shallow embedding of `lambda_handler` (src/app.py lines 338-381):
the try-block result, with any raised exception mapped to a 500 response
embedding the exception message. -/
def lambda_handler (event : LambdaEvent) (env : Env)
    (kendra : KendraOutcome) (bedrock : BedrockOutcome) (now : String) :
    LambdaResponse :=
  match lambda_handler_core event env kendra bedrock now with
  | .ok r => r
  | .error e =>
      { statusCode := 500
        headers := [("Content-Type", "application/json")]
        body := .errorBody ("Internal server error: " ++ e) }

end ComplianceBot

namespace ComplianceBot

/-- C1 sanity example: mixed-confidence items keep only the HIGH ones. -/
example :
    query_kendra_rag (.ok
      [ { documentExcerptText := some "a", documentTitleText := some "t1",
          scoreConfidence := some "HIGH" }
      , { documentExcerptText := some "b", documentTitleText := some "t2",
          scoreConfidence := some "MEDIUM" }
      , { documentExcerptText := some "c", documentTitleText := some "t3",
          scoreConfidence := some "HIGH" } ]) =
    some [ { text := "a", title := "t1", confidence := "HIGH" }
         , { text := "c", title := "t3", confidence := "HIGH" } ] := by
  decide

/-- C1: for every service response of at most 5 candidate items, the
retrieval client returns exactly the items labelled HIGH, in their
original order, with every non-HIGH item discarded; each returned excerpt
carries the HIGH label. -/
theorem kendra_filters_high_preserving_order
    (items : List ResultItem) (h : items.length ≤ 5) :
    excerptsOf (query_kendra_rag (.ok items)) =
      (items.filter (fun r => r.scoreConfidence == some "HIGH")).map toExcerpt ∧
    ∀ e ∈ excerptsOf (query_kendra_rag (.ok items)), e.confidence = "HIGH" := by
  constructor
  · simp only [query_kendra_rag, excerptsOf]
    split
    · next hemp =>
        rw [List.isEmpty_iff] at hemp
        simp [hemp]
    · rfl
  · intro e he
    simp only [query_kendra_rag, excerptsOf] at he
    split at he
    · simp at he
    · simp only [Option.getD_some, List.mem_map] at he
      obtain ⟨r, hr, rfl⟩ := he
      have := List.of_mem_filter hr
      simp only [beq_iff_eq] at this
      simp [toExcerpt, this]

/-- C1 witness at a concrete 3-item response. -/
theorem kendra_filters_high_preserving_order_witness :
    excerptsOf (query_kendra_rag (.ok
      [ { documentExcerptText := some "a", documentTitleText := some "t1",
          scoreConfidence := some "HIGH" }
      , { documentExcerptText := some "b", documentTitleText := some "t2",
          scoreConfidence := some "LOW" }
      , { documentExcerptText := some "c", documentTitleText := some "t3",
          scoreConfidence := some "HIGH" } ])) =
      ([ ({ documentExcerptText := some "a", documentTitleText := some "t1",
            scoreConfidence := some "HIGH" } : ResultItem)
       , { documentExcerptText := some "b", documentTitleText := some "t2",
           scoreConfidence := some "LOW" }
       , { documentExcerptText := some "c", documentTitleText := some "t3",
           scoreConfidence := some "HIGH" } ].filter
          (fun r => r.scoreConfidence == some "HIGH")).map toExcerpt :=
  (kendra_filters_high_preserving_order _ (by decide)).1

/-- C2: on every path of the orchestrator, over all retrieval and
generation outcomes including failures, the `context_sources` field of
the returned answer is present exactly when `rag_used` is true and the
retrieval step returned at least one high-confidence excerpt. -/
theorem sources_present_iff_rag_used
    (question : String) (use_rag : Bool) (kendra : KendraOutcome)
    (bedrock : BedrockOutcome) (now : String) :
    (get_compliance_answer question use_rag kendra bedrock now).context_sources.isSome
      = true ↔
    ((get_compliance_answer question use_rag kendra bedrock now).rag_used = true ∧
      use_rag = true ∧ excerptsOf (query_kendra_rag kendra) ≠ []) := by
  simp only [get_compliance_answer, kendraResults]
  cases use_rag with
  | false => simp [pyTruthyOptList]
  | true =>
      cases hq : query_kendra_rag kendra with
      | none => simp [pyTruthyOptList, excerptsOf]
      | some l =>
          cases l with
          | nil => simp [pyTruthyOptList, excerptsOf]
          | cons e es => simp [pyTruthyOptList, excerptsOf, List.isEmpty]

/-- C3: when the generation call fails with message `e`, the orchestrator
still returns an answer whose text is the fixed apology string followed by
`e` (hence non-empty and containing the failure detail as a substring),
and whose `rag_used` flag is determined by the retrieval steps alone. -/
theorem generation_failure_surfaces_as_answer
    (question : String) (use_rag : Bool) (kendra : KendraOutcome)
    (e : String) (now : String) :
    (get_compliance_answer question use_rag kendra (.error e) now).answer =
      "I apologize, but I encountered an error while processing your question: " ++ e ∧
    (get_compliance_answer question use_rag kendra (.error e) now).answer ≠ "" ∧
    e.data <:+:
      (get_compliance_answer question use_rag kendra (.error e) now).answer.data ∧
    ∀ bedrock : BedrockOutcome,
      (get_compliance_answer question use_rag kendra (.error e) now).rag_used =
      (get_compliance_answer question use_rag kendra bedrock now).rag_used := by
  have hans : (get_compliance_answer question use_rag kendra (.error e) now).answer =
      "I apologize, but I encountered an error while processing your question: " ++ e :=
    rfl
  refine ⟨rfl, ?_, ?_, fun _ => rfl⟩
  · rw [hans]
    intro h
    have hlen := congrArg String.length h
    rw [String.length_append] at hlen
    have h72 :
        ("I apologize, but I encountered an error while processing your question: " :
          String).length = 72 := by decide
    have h0 : ("" : String).length = 0 := rfl
    omega
  · rw [hans, String.data_append]
    exact ⟨("I apologize, but I encountered an error while processing your question: " :
      String).data, [], by simp⟩

/-- C4: when the retrieval call fails with message `e`, the retrieval
client returns no results rather than an error, and the orchestrator
reports `rag_used = false` and builds the generation prompt with no
context. -/
theorem retrieval_failure_degrades_silently
    (question : String) (e : String) (bedrock : BedrockOutcome) (now : String) :
    query_kendra_rag (.error e) = none ∧
    (get_compliance_answer question true (.error e) bedrock now).rag_used = false ∧
    (get_compliance_answer question true (.error e) bedrock now).answer =
      query_bedrock_llm (create_compliance_prompt question none) bedrock := by
  refine ⟨rfl, rfl, ?_⟩
  simp [get_compliance_answer, ragContext, kendraResults, query_kendra_rag, pyTruthyOptList]

/-- C5: when retrieval yields four or more high-confidence excerpts, the
context the orchestrator hands to the prompt builder is exactly the first
three excerpt texts, each prefixed with a dash and a space, joined by
newlines, and the answer is generated from the prompt built over that
context. -/
theorem context_truncates_to_first_three
    (question : String) (items : List ResultItem)
    (e1 e2 e3 e4 : Excerpt) (rest : List Excerpt)
    (bedrock : BedrockOutcome) (now : String)
    (h : excerptsOf (query_kendra_rag (.ok items)) = e1 :: e2 :: e3 :: e4 :: rest) :
    ragContext true (.ok items) =
      some ("- " ++ e1.text ++ "\n" ++ ("- " ++ e2.text) ++ "\n" ++ ("- " ++ e3.text)) ∧
    (get_compliance_answer question true (.ok items) bedrock now).answer =
      query_bedrock_llm
        (create_compliance_prompt question (ragContext true (.ok items))) bedrock := by
  refine ⟨?_, rfl⟩
  have hq : query_kendra_rag (.ok items) = some (e1 :: e2 :: e3 :: e4 :: rest) := by
    rw [excerptsOf] at h
    cases hqq : query_kendra_rag (.ok items) with
    | none => rw [hqq] at h; simp at h
    | some l =>
        rw [hqq] at h
        simp only [Option.getD_some] at h
        rw [h]
  rw [ragContext, kendraResults]
  simp only [if_pos rfl, hq, excerptsOf, pyTruthyOptList, Option.getD_some]
  simp [String.intercalate, String.intercalate.go, List.take]

/-- C5 witness at a concrete 5-item retrieval response. -/
theorem context_truncates_to_first_three_witness :
    ragContext true (.ok
      [ { documentExcerptText := some "tA", documentTitleText := some "1",
          scoreConfidence := some "HIGH" }
      , { documentExcerptText := some "tB", documentTitleText := some "2",
          scoreConfidence := some "HIGH" }
      , { documentExcerptText := some "tC", documentTitleText := some "3",
          scoreConfidence := some "HIGH" }
      , { documentExcerptText := some "tD", documentTitleText := some "4",
          scoreConfidence := some "HIGH" }
      , { documentExcerptText := some "tE", documentTitleText := some "5",
          scoreConfidence := some "HIGH" } ]) =
      some ("- " ++ "tA" ++ "\n" ++ ("- " ++ "tB") ++ "\n" ++ ("- " ++ "tC")) ∧
    (get_compliance_answer "q" true (.ok
      [ { documentExcerptText := some "tA", documentTitleText := some "1",
          scoreConfidence := some "HIGH" }
      , { documentExcerptText := some "tB", documentTitleText := some "2",
          scoreConfidence := some "HIGH" }
      , { documentExcerptText := some "tC", documentTitleText := some "3",
          scoreConfidence := some "HIGH" }
      , { documentExcerptText := some "tD", documentTitleText := some "4",
          scoreConfidence := some "HIGH" }
      , { documentExcerptText := some "tE", documentTitleText := some "5",
          scoreConfidence := some "HIGH" } ]) (.ok "Answer text") "now").answer =
      query_bedrock_llm
        (create_compliance_prompt "q" (ragContext true (.ok
          [ { documentExcerptText := some "tA", documentTitleText := some "1",
              scoreConfidence := some "HIGH" }
          , { documentExcerptText := some "tB", documentTitleText := some "2",
              scoreConfidence := some "HIGH" }
          , { documentExcerptText := some "tC", documentTitleText := some "3",
              scoreConfidence := some "HIGH" }
          , { documentExcerptText := some "tD", documentTitleText := some "4",
              scoreConfidence := some "HIGH" }
          , { documentExcerptText := some "tE", documentTitleText := some "5",
              scoreConfidence := some "HIGH" } ]))) (.ok "Answer text") :=
  context_truncates_to_first_three "q" _
    { text := "tA", title := "1", confidence := "HIGH" }
    { text := "tB", title := "2", confidence := "HIGH" }
    { text := "tC", title := "3", confidence := "HIGH" }
    { text := "tD", title := "4", confidence := "HIGH" }
    [{ text := "tE", title := "5", confidence := "HIGH" }]
    (.ok "Answer text") "now" (by decide)

example : pyInt "2000" = some 2000 := by decide

/-- Helper: the default temperature string parses to the exact rational
seven tenths. -/
theorem pyFloat_default_temperature : pyFloat "0.7" = some (7 / 10 : ℚ) := by
  have hd : "0.7".data = ['0', '.', '7'] := rfl
  simp only [pyFloat, hd]
  norm_num [List.takeWhile, List.dropWhile, digitsToNat,
    show ('0' : Char).isDigit = true from rfl,
    show ('.' : Char).isDigit = false from rfl,
    show ('7' : Char).isDigit = true from rfl,
    show ('0' : Char).toNat = 48 from rfl,
    show ('7' : Char).toNat = 55 from rfl,
    show ¬('0' = '-') from by decide,
    show ¬('0' = '+') from by decide]

/-- Helper: the default confidence string parses to the exact rational
three tenths. -/
theorem pyFloat_default_confidence : pyFloat "0.3" = some (3 / 10 : ℚ) := by
  have hd : "0.3".data = ['0', '.', '3'] := rfl
  simp only [pyFloat, hd]
  norm_num [List.takeWhile, List.dropWhile, digitsToNat,
    show ('0' : Char).isDigit = true from rfl,
    show ('.' : Char).isDigit = false from rfl,
    show ('3' : Char).isDigit = true from rfl,
    show ('0' : Char).toNat = 48 from rfl,
    show ('3' : Char).toNat = 51 from rfl,
    show ¬('0' = '-') from by decide,
    show ¬('0' = '+') from by decide]

/-- C6: configuration loading fails with the credentials error exactly
when either credential is unset or empty; when both credentials are
present, an environment with every other key absent loads with the
documented defaults: region us-east-1, the fixed Claude model id, 2000
max tokens, temperature 0.7, index salespitch, minimum confidence 0.3. -/
theorem config_credentials_required_and_defaults :
    (∀ env : Env,
      (∃ m, setup_aws_clients env = .error (.credentialsError m)) ↔
        (pyTruthyStr env.aws_access_key_id = false ∨
         pyTruthyStr env.aws_secret_access_key = false)) ∧
    (∀ a s : String, a ≠ "" → s ≠ "" →
      setup_aws_clients (envWithCreds a s) =
        .ok ({ region_name := "us-east-1"
               aws_access_key_id := some a
               aws_secret_access_key := some s },
             { model_id := "anthropic.claude-3-sonnet-20240229-v1:0"
               max_tokens := 2000
               temperature := 7 / 10
               kendra_index_id := "salespitch"
               min_confidence_score := 3 / 10 })) := by
  constructor
  · intro env
    rw [setup_aws_clients]
    cases hA : pyTruthyStr env.aws_access_key_id <;>
      cases hS : pyTruthyStr env.aws_secret_access_key <;>
        simp only [hA, hS, Bool.not_false, Bool.not_true, Bool.or_self, Bool.or_true,
          Bool.true_or, Bool.false_or, if_true, if_false, Bool.or_false]
    · simp
    · simp
    · simp
    · constructor
      · intro ⟨m, hm⟩
        cases h1 : pyInt (env.bedrock_max_tokens.getD "2000") <;> rw [h1] at hm
        · exact absurd hm (by simp)
        cases h2 : pyFloat (env.bedrock_temperature.getD "0.7") <;> rw [h2] at hm
        · exact absurd hm (by simp)
        cases h3 : pyFloat (env.kendra_min_confidence_score.getD "0.3") <;> rw [h3] at hm
        · exact absurd hm (by simp)
        · exact absurd hm (by simp)
      · rintro (h | h) <;> simp at h
  · intro a s ha hs
    have hA : pyTruthyStr (some a) = true := by
      simp [pyTruthyStr, ha]
    have hS : pyTruthyStr (some s) = true := by
      simp [pyTruthyStr, hs]
    rw [setup_aws_clients]
    simp only [envWithCreds, hA, hS, Bool.not_true, Bool.or_self, if_false,
      Option.getD_none]
    have h1 : pyInt "2000" = some 2000 := by decide
    rw [h1, pyFloat_default_temperature, pyFloat_default_confidence]
    rfl

/-- C6 witness: a concrete unset-credential environment fails with the
credentials error, and concrete credentials with no other keys load the
defaults. -/
theorem config_credentials_required_and_defaults_witness :
    ((∃ m, setup_aws_clients (envWithCreds "" "shhh") = .error (.credentialsError m)) ↔
      (pyTruthyStr (envWithCreds "" "shhh").aws_access_key_id = false ∨
       pyTruthyStr (envWithCreds "" "shhh").aws_secret_access_key = false)) ∧
    setup_aws_clients (envWithCreds "AKIAEXAMPLE" "shhh") =
      .ok ({ region_name := "us-east-1"
             aws_access_key_id := some "AKIAEXAMPLE"
             aws_secret_access_key := some "shhh" },
           { model_id := "anthropic.claude-3-sonnet-20240229-v1:0"
             max_tokens := 2000
             temperature := 7 / 10
             kendra_index_id := "salespitch"
             min_confidence_score := 3 / 10 }) :=
  ⟨config_credentials_required_and_defaults.1 (envWithCreds "" "shhh"),
   config_credentials_required_and_defaults.2 "AKIAEXAMPLE" "shhh"
     (by decide) (by decide)⟩

/-- Helper: a pattern that is an infix of a string occurs in it at least
once. -/
theorem countSubstr_pos_of_infix (s pat : String) (h : pat.data <:+: s.data) :
    1 ≤ countSubstr s pat := by
  obtain ⟨t, hpre, hsuf⟩ := List.infix_iff_prefix_suffix.mp h
  have ht : t ∈ s.data.tails := (List.mem_tails _ _).mpr hsuf
  have hmem : t ∈ s.data.tails.filter (fun u => pat.data.isPrefixOf u) :=
    List.mem_filter.mpr ⟨ht, by simpa [List.isPrefixOf_iff_prefix] using hpre⟩
  have hp := List.length_pos.mpr (List.ne_nil_of_mem hmem)
  simpa [countSubstr] using hp

set_option maxRecDepth 10000 in
/-- C7 counterexample: with the question KYC and a present context, the
built prompt does not contain the question text exactly once, because the
fixed template already mentions KYC; the claimed exactly-once property
fails at this input. -/
theorem prompt_exactly_once_counterexample :
    ¬ (countSubstr (create_compliance_prompt "KYC" (some "relevant excerpt")) "KYC" = 1 ∧
       countSubstr (create_compliance_prompt "KYC" (some "relevant excerpt"))
         "relevant excerpt" = 1) := by
  intro hc
  exact absurd hc.1 (by decide)

/-- C7 (amended): the prompt builder is deterministic (two calls on equal
inputs give identical output), and for every question and every present
non-empty context the built prompt contains the literal question text at
least once and the literal context text at least once.  Exactly-once
fails in general because the question or context may already occur in the
fixed template text. -/
theorem prompt_deterministic_and_contains_inputs (q c : String) (hc : c ≠ "") :
    create_compliance_prompt q (some c) = create_compliance_prompt q (some c) ∧
    1 ≤ countSubstr (create_compliance_prompt q (some c)) q ∧
    1 ≤ countSubstr (create_compliance_prompt q (some c)) c := by
  refine ⟨rfl, ?_, ?_⟩
  · refine countSubstr_pos_of_infix _ _
      ⟨compliancePromptHeader.data,
       ("\n\n" : String).data ++ ("Additional Context: " ++ c).data ++
         compliancePromptFooter.data, ?_⟩
    simp [create_compliance_prompt, pyTruthyStr, hc, List.append_assoc]
  · refine countSubstr_pos_of_infix _ _
      ⟨compliancePromptHeader.data ++ q.data ++ ("\n\n" : String).data ++
         ("Additional Context: " : String).data,
       compliancePromptFooter.data, ?_⟩
    simp [create_compliance_prompt, pyTruthyStr, hc, List.append_assoc]

/-- C7 witness at a concrete question and context. -/
theorem prompt_deterministic_and_contains_inputs_witness :
    create_compliance_prompt "What is KYC?" (some "ctx") =
      create_compliance_prompt "What is KYC?" (some "ctx") ∧
    1 ≤ countSubstr (create_compliance_prompt "What is KYC?" (some "ctx"))
      "What is KYC?" ∧
    1 ≤ countSubstr (create_compliance_prompt "What is KYC?" (some "ctx")) "ctx" :=
  prompt_deterministic_and_contains_inputs "What is KYC?" "ctx" (by decide)

/-- Helper: an occurrence of a non-empty word inside an appended list
whose left part shares no character with the word must lie entirely in
the right part. -/
theorem infix_right_of_disjoint {s p v : List Char}
    (hs : s ≠ []) (hdisj : ∀ c ∈ s, c ∉ p) (h : s <:+: p ++ v) : s <:+: v := by
  induction p with
  | nil => simpa using h
  | cons a p ih =>
      rw [List.cons_append] at h
      rcases List.infix_cons_iff.mp h with hpre | hinf
      · cases s with
        | nil => exact absurd rfl hs
        | cons b bs =>
            obtain ⟨t, ht⟩ := hpre
            have hb : b = a := by
              have hh := congrArg List.head? ht
              simpa using hh
            exact absurd (by rw [hb]; exact List.mem_cons_self a p)
              (hdisj b (List.mem_cons_self b bs))
      · exact ih (fun c hc hcp => hdisj c hc (List.mem_cons_of_mem a hcp)) hinf

/-- Helper: a list of lowercase-or-digit characters is disjoint from a
list whose characters are all outside that class. -/
theorem disjoint_of_char_classes {s p : List Char}
    (hchars : ∀ c ∈ s, (c.isLower || c.isDigit) = true)
    (hp : ∀ c ∈ p, (c.isLower || c.isDigit) = false) :
    ∀ c ∈ s, c ∉ p := by
  intro c hc hcp
  have h1 := hchars c hc
  have h2 := hp c hcp
  rw [h1] at h2
  exact Bool.noConfusion h2

/-- C8 counterexample: the loader prints the access key id credential in
full: with a concrete credential pair, the debug output contains a line
carrying the entire access key id value, so a full credential value from
the loaded pair does appear in the print output. -/
theorem access_key_printed_in_full_counterexample :
    (envWithCreds "AKIA1234EXAMPLE" "topsecretvalue1").aws_access_key_id =
      some "AKIA1234EXAMPLE" ∧
    ("AWS_ACCESS_KEY_ID: " ++ "AKIA1234EXAMPLE") ∈
      setup_debug_output (envWithCreds "AKIA1234EXAMPLE" "topsecretvalue1") ∧
    "AKIA1234EXAMPLE".data <:+: ("AWS_ACCESS_KEY_ID: " ++ "AKIA1234EXAMPLE").data := by
  refine ⟨rfl, ?_, ?_⟩
  · simp [setup_debug_output, envWithCreds]
  · exact ⟨("AWS_ACCESS_KEY_ID: " : String).data, [], by decide⟩

/-- C8 (amended): the access key id is printed in full, so one credential
of the pair does appear unmasked (see the counterexample); the secret
access key, however, is printed only in the masked form of three
asterisks and its last four characters, and, for a secret of more than
four lowercase-or-digit characters that occurs in no other configured
value nor in the fixed banner text, the full secret value appears in no
printed line. -/
theorem secret_printed_only_masked
    (env : Env) (secret : String)
    (hsec : env.aws_secret_access_key = some secret)
    (hlen : 4 < secret.length)
    (hchars : ∀ c ∈ secret.data, (c.isLower || c.isDigit) = true)
    (hacc : ¬ secret.data <:+: (env.aws_access_key_id.getD "NOT_FOUND").data)
    (hreg : ¬ secret.data <:+: (env.aws_region.getD "NOT_FOUND").data)
    (hmod : ¬ secret.data <:+: (env.bedrock_model_id.getD "NOT_FOUND").data)
    (hken : ¬ secret.data <:+: (env.kendra_index_id.getD "NOT_FOUND").data)
    (hban : ¬ secret.data <:+:
      ("=== Environment Variables Debug ===" : String).data) :
    maskedSecretDisplay env.aws_secret_access_key = "***" ++ pySliceLast4 secret ∧
    ∀ line ∈ setup_debug_output env, ¬ secret.data <:+: line.data := by
  have hne : secret ≠ "" := by
    intro h
    rw [h] at hlen
    exact absurd hlen (by decide)
  have hmask : maskedSecretDisplay env.aws_secret_access_key =
      "***" ++ pySliceLast4 secret := by
    simp [maskedSecretDisplay, hsec, pyTruthyStr, hne]
  have hsnil : secret.data ≠ [] := by
    intro h
    have : secret.length = 0 := by
      show secret.data.length = 0
      rw [h]
      rfl
    omega
  refine ⟨hmask, ?_⟩
  intro line hl
  simp only [setup_debug_output, List.mem_cons, List.not_mem_nil, or_false] at hl
  rcases hl with rfl | rfl | rfl | rfl | rfl | rfl | rfl
  · exact hban
  · intro h
    rw [String.data_append] at h
    exact hacc (infix_right_of_disjoint hsnil
      (disjoint_of_char_classes hchars (by decide)) h)
  · intro h
    rw [hmask, String.data_append, String.data_append, ← List.append_assoc] at h
    have hdisj : ∀ c ∈ secret.data,
        c ∉ ("AWS_SECRET_ACCESS_KEY: " : String).data ++ ("***" : String).data :=
      disjoint_of_char_classes hchars (by decide)
    have hin4 := infix_right_of_disjoint hsnil hdisj h
    have hle := hin4.length_le
    have h4 : (pySliceLast4 secret).data.length ≤ 4 := by
      show (secret.data.drop (secret.data.length - 4)).length ≤ 4
      rw [List.length_drop]
      omega
    have hslen : secret.data.length = secret.length := rfl
    omega
  · intro h
    rw [String.data_append] at h
    exact hreg (infix_right_of_disjoint hsnil
      (disjoint_of_char_classes hchars (by decide)) h)
  · intro h
    rw [String.data_append] at h
    exact hmod (infix_right_of_disjoint hsnil
      (disjoint_of_char_classes hchars (by decide)) h)
  · intro h
    rw [String.data_append] at h
    exact hken (infix_right_of_disjoint hsnil
      (disjoint_of_char_classes hchars (by decide)) h)
  · intro h
    obtain ⟨c, cs, hcons⟩ := List.exists_cons_of_ne_nil hsnil
    have hcmem : c ∈ secret.data := by rw [hcons]; exact List.mem_cons_self c cs
    have hsub := h.sublist.subset hcmem
    have hall : ∀ c ∈ ("===================================" : String).data,
        (c.isLower || c.isDigit) = false := by decide
    exact disjoint_of_char_classes hchars hall c hcmem (by simpa using hsub)

/-- C8 witness at a concrete environment: the secret abcde12345 is shown
only as its masked form and occurs in no printed line. -/
theorem secret_printed_only_masked_witness :
    maskedSecretDisplay
      (envWithCreds "AKIAEXAMPLE" "abcde12345").aws_secret_access_key =
      "***" ++ pySliceLast4 "abcde12345" ∧
    ∀ line ∈ setup_debug_output (envWithCreds "AKIAEXAMPLE" "abcde12345"),
      ¬ ("abcde12345" : String).data <:+: line.data :=
  secret_printed_only_masked (envWithCreds "AKIAEXAMPLE" "abcde12345")
    "abcde12345" rfl (by decide) (by decide) (by decide) (by decide) (by decide)
    (by decide) (by decide)

/-- C9: on a successfully initialized configuration, the handler answers
400 with an error body when the extracted question is empty (missing from
both the POST body and the query parameters), answers 200 with a body
serializing the compliance answer when a question is present, and maps
every exception raised inside the pipeline to a 500 response embedding
the exception message. -/
theorem lambda_handler_contract
    (event : LambdaEvent) (env : Env) (kendra : KendraOutcome)
    (bedrock : BedrockOutcome) (now : String) :
    (∀ cfg, setup_aws_clients env = .ok cfg →
      ∀ u, extractQuestionUseRag event = .ok ("", u) →
        lambda_handler event env kendra bedrock now =
          { statusCode := 400
            headers := [("Content-Type", "application/json")]
            body := .errorBody "Question parameter is required" }) ∧
    (∀ cfg, setup_aws_clients env = .ok cfg →
      ∀ q u, extractQuestionUseRag event = .ok (q, u) → q ≠ "" →
        lambda_handler event env kendra bedrock now =
          { statusCode := 200
            headers := [("Content-Type", "application/json"),
                        ("Access-Control-Allow-Origin", "*")]
            body := .answerBody (get_compliance_answer q u kendra bedrock now) }) ∧
    (∀ e, lambda_handler_core event env kendra bedrock now = .error e →
      lambda_handler event env kendra bedrock now =
        { statusCode := 500
          headers := [("Content-Type", "application/json")]
          body := .errorBody ("Internal server error: " ++ e) }) := by
  refine ⟨?_, ?_, ?_⟩
  · intro cfg hcfg u hext
    rw [lambda_handler, lambda_handler_core, hcfg, hext]
    rfl
  · intro cfg hcfg q u hext hq
    rw [lambda_handler, lambda_handler_core, hcfg, hext]
    simp [hq]
  · intro e herr
    rw [lambda_handler, herr]

/-- C9 witness: one concrete event per branch, over a valid environment:
a GET with no question gives 400, a POST with a question gives 200, and a
POST with a malformed body gives 500. -/
theorem lambda_handler_contract_witness :
    lambda_handler
      { httpMethod := none, body := none, queryStringParameters := none }
      (envWithCreds "AKIAEXAMPLE" "shhh") (.error "down") (.ok "Answer text") "now" =
      { statusCode := 400
        headers := [("Content-Type", "application/json")]
        body := .errorBody "Question parameter is required" } ∧
    lambda_handler
      { httpMethod := some "POST"
        body := some (.ok { question := some "What is KYC?", use_rag := some false })
        queryStringParameters := none }
      (envWithCreds "AKIAEXAMPLE" "shhh") (.error "down") (.ok "Answer text") "now" =
      { statusCode := 200
        headers := [("Content-Type", "application/json"),
                    ("Access-Control-Allow-Origin", "*")]
        body := .answerBody
          (get_compliance_answer "What is KYC?" false (.error "down")
            (.ok "Answer text") "now") } ∧
    lambda_handler
      { httpMethod := some "POST"
        body := some (.error "Expecting value: line 1 column 1 (char 0)")
        queryStringParameters := none }
      (envWithCreds "AKIAEXAMPLE" "shhh") (.error "down") (.ok "Answer text") "now" =
      { statusCode := 500
        headers := [("Content-Type", "application/json")]
        body := .errorBody
          ("Internal server error: " ++ "Expecting value: line 1 column 1 (char 0)") } := by
  have hcfg := config_credentials_required_and_defaults.2 "AKIAEXAMPLE" "shhh"
    (by decide) (by decide)
  refine ⟨?_, ?_, ?_⟩
  · exact (lambda_handler_contract _ _ _ _ _).1 _ hcfg true rfl
  · exact (lambda_handler_contract _ _ _ _ _).2.1 _ hcfg "What is KYC?" false rfl
      (by decide)
  · exact (lambda_handler_contract _ _ _ _ _).2.2
      "Expecting value: line 1 column 1 (char 0)"
      (by rw [lambda_handler_core, hcfg]; rfl)

/-- C10: on the non-POST path with a present query-parameter dictionary,
the retrieval flag handed to the orchestrator is computed by
`extract_use_rag_get`, and it is true exactly when the `use_rag`
parameter is absent or its ASCII-lowercased value is the text true;
every other value yields false. -/
theorem use_rag_query_param_semantics
    (event : LambdaEvent) (qd : QueryDict)
    (hm : (event.httpMethod == some "POST") = false)
    (hq : event.queryStringParameters = some (some qd)) :
    extractQuestionUseRag event = .ok (qd.question.getD "", extract_use_rag_get qd) ∧
    (extract_use_rag_get qd = true ↔
      (qd.use_rag = none ∨ ∃ v, qd.use_rag = some v ∧ pyLower v = "true")) := by
  constructor
  · rw [extractQuestionUseRag, hm, hq]
    rfl
  · rw [extract_use_rag_get]
    cases hv : qd.use_rag with
    | none => simp [pyLower, pyCharLower]
    | some v => simp

/-- C10 witness: concrete events showing that an absent parameter and the
value TRUE give true, while the values 1, yes and TRUE-with-a-space give
false. -/
theorem use_rag_query_param_semantics_witness :
    (extractQuestionUseRag
      { httpMethod := none
        body := none
        queryStringParameters := some (some { question := some "q", use_rag := none }) } =
      .ok ("q", extract_use_rag_get { question := some "q", use_rag := none }) ∧
      (extract_use_rag_get { question := some "q", use_rag := none } = true ↔
        (({ question := some "q", use_rag := none } : QueryDict).use_rag = none ∨
          ∃ v, ({ question := some "q", use_rag := none } : QueryDict).use_rag = some v ∧
            pyLower v = "true"))) ∧
    extract_use_rag_get { question := some "q", use_rag := none } = true ∧
    extract_use_rag_get { question := some "q", use_rag := some "TRUE" } = true ∧
    extract_use_rag_get { question := some "q", use_rag := some "1" } = false ∧
    extract_use_rag_get { question := some "q", use_rag := some "yes" } = false ∧
    extract_use_rag_get { question := some "q", use_rag := some "TRUE " } = false :=
  ⟨use_rag_query_param_semantics
      { httpMethod := none
        body := none
        queryStringParameters := some (some { question := some "q", use_rag := none }) }
      { question := some "q", use_rag := none } rfl rfl,
   by decide, by decide, by decide, by decide, by decide⟩

end ComplianceBot
